import Mathlib

/-!
Shallow embedding of the authentication / policy / session / rate-limit core
of the gateway middleware chain (JWT middleware, session resolver with policy
overlay, rate-limit and quota middleware, and the file policy loader).

Go maps are modelled as association lists (first binding wins); a `nil` Go map
is modelled as `none : Option (List (String × String))`, distinct from an empty
map `some []`, because the source distinguishes the two (`!= nil` checks).
Go's `float64` rate fields are only ever copied and compared by the code under
study, never computed with, so they are modelled by their exact values as `Int`.
External library calls (HTTP fetch, JSON decode, base64 decode, the session
limiter) are parameters of the embedding; everything else is translated
directly from the source.
-/

namespace Tyk

/-- Association-list lookup, modelling a Go map read (`m[k]` with `, ok`). -/
def assocLookup {α : Type} (m : List (String × α)) (k : String) : Option α :=
  match m with
  | [] => none
  | (k', v) :: rest => if k' = k then some v else assocLookup rest k

/-- Go `map[string]string` read without `, ok`: missing keys give `""`. -/
def lookupStr (m : List (String × String)) (k : String) : String :=
  (assocLookup m k).getD ""

/-- Modelled from the spec: access-rights entries (permitted versions, paths,
methods) are opaque to all the code under study, which only copies them. -/
structure AccessDefinition where
  raw : String
deriving DecidableEq, Repr

/-- Modelled from the spec (§3 SessionState) and from the fields the source
reads and writes: the mutable per-caller session record. -/
structure SessionState where
  allowance : Int
  rate : Int
  per : Int
  quotaMax : Int
  quotaRemaining : Int
  quotaRenewalRate : Int
  quotaRenews : Int
  policyPerAPI : Option (List (String × String))
  accessRights : List (String × AccessDefinition)
  hmacEnabled : Bool
  isInactive : Bool
  tags : List String
  applyPolicyID : String
  oauthClientID : String
  jwtDataSecret : String
deriving DecidableEq, Repr

/-- The Go zero value `SessionState{}`: numeric fields 0, strings empty,
maps nil, bools false. -/
def SessionState.zero : SessionState :=
  { allowance := 0, rate := 0, per := 0, quotaMax := 0, quotaRemaining := 0
  , quotaRenewalRate := 0, quotaRenews := 0, policyPerAPI := none
  , accessRights := [], hmacEnabled := false, isInactive := false, tags := []
  , applyPolicyID := "", oauthClientID := "", jwtDataSecret := "" }

/-- Policy template, translated from `policy.go` (`type Policy struct`). -/
structure Policy where
  id : String
  orgID : String
  rate : Int
  per : Int
  quotaMax : Int
  quotaRenewalRate : Int
  policyPerAPI : Option (List (String × String))
  accessRights : List (String × AccessDefinition)
  hmacEnabled : Bool
  active : Bool
  isInactive : Bool
  tags : List String
  keyExpiresIn : Int
deriving DecidableEq, Repr

/-- A TTL'd key/value store (SessionStore protocol, local session cache, auth
store) modelled as an association list; TTLs play no role in the claims. -/
def Store : Type := List (String × SessionState)

instance : DecidableEq Store := by unfold Store; infer_instance

instance : Repr Store := by unfold Store; infer_instance

def storeGet (st : Store) (k : String) : Option SessionState :=
  assocLookup st k

/-- `UpdateSession` / cache `Set`: newest binding shadows older ones. -/
def storeSet (st : Store) (k : String) (v : SessionState) : Store :=
  (k, v) :: st

/-- API/gateway configuration: the fields of `APISpec` / `config` that the
code under study reads, plus the process-wide policy registry `Policies`. -/
structure Env where
  apiID : String
  orgID : String
  policies : List (String × Policy)
  disableCacheSessionState : Bool
  jwtIdentityBaseField : String
  jwtPolicyFieldName : String
  jwtSource : String
  jwtSigningMethod : String
deriving DecidableEq, Repr

/-- The three layered key/value stores the session resolver consults. -/
structure GwState where
  cache : Store
  store : Store
  auth : Store
deriving DecidableEq, Repr

end Tyk

namespace Tyk.MD5

/-- Reduce to a 32-bit word. -/
def w32 (n : Nat) : Nat := n % 4294967296

/-- 32-bit modular addition. -/
def wadd (a b : Nat) : Nat := (a + b) % 4294967296

/-- 32-bit complement (for `a < 2^32`). -/
def wnot (a : Nat) : Nat := Nat.xor a 4294967295

/-- 32-bit left rotation. -/
def rotl32 (x c : Nat) : Nat :=
  Nat.lor (w32 (Nat.shiftLeft x c)) (Nat.shiftRight x (32 - c))

/-- The per-operation sine-derived constants of MD5. -/
def kTable : List Nat :=
  [3614090360, 3905402710, 606105819, 3250441966, 4118548399, 1200080426,
   2821735955, 4249261313, 1770035416, 2336552879, 4294925233, 2304563134,
   1804603682, 4254626195, 2792965006, 1236535329, 4129170786, 3225465664,
   643717713, 3921069994, 3593408605, 38016083, 3634488961, 3889429448,
   568446438, 3275163606, 4107603335, 1163531501, 2850285829, 4243563512,
   1735328473, 2368359562, 4294588738, 2272392833, 1839030562, 4259657740,
   2763975236, 1272893353, 4139469664, 3200236656, 681279174, 3936430074,
   3572445317, 76029189, 3654602809, 3873151461, 530742520, 3299628645,
   4096336452, 1126891415, 2878612391, 4237533241, 1700485571, 2399980690,
   4293915773, 2240044497, 1873313359, 4264355552, 2734768916, 1309151649,
   4149444226, 3174756917, 718787259, 3951481745]

/-- The per-operation left-rotation amounts of MD5. -/
def sTable : List Nat :=
  [7, 12, 17, 22, 7, 12, 17, 22, 7, 12, 17, 22, 7, 12, 17, 22,
   5, 9, 14, 20, 5, 9, 14, 20, 5, 9, 14, 20, 5, 9, 14, 20,
   4, 11, 16, 23, 4, 11, 16, 23, 4, 11, 16, 23, 4, 11, 16, 23,
   6, 10, 15, 21, 6, 10, 15, 21, 6, 10, 15, 21, 6, 10, 15, 21]

/-- Little-endian byte rendering of `v`, `n` bytes wide. -/
def leBytes : Nat → Nat → List Nat
  | 0, _ => []
  | n + 1, v => (v % 256) :: leBytes n (v / 256)

/-- Word `g` (little-endian) of a 64-byte chunk. -/
def chunkWord (chunk : List Nat) (g : Nat) : Nat :=
  chunk.getD (4 * g) 0 + 256 * chunk.getD (4 * g + 1) 0 +
    65536 * chunk.getD (4 * g + 2) 0 + 16777216 * chunk.getD (4 * g + 3) 0

/-- One of the 64 MD5 operations on the running state `(a, b, c, d)`. -/
def md5Op (chunk : List Nat) (st : Nat × Nat × Nat × Nat) (i : Nat) :
    Nat × Nat × Nat × Nat :=
  let (a, b, c, d) := st
  let fg : Nat × Nat :=
    if i < 16 then (Nat.lor (Nat.land b c) (Nat.land (wnot b) d), i)
    else if i < 32 then (Nat.lor (Nat.land d b) (Nat.land (wnot d) c), (5 * i + 1) % 16)
    else if i < 48 then (Nat.xor b (Nat.xor c d), (3 * i + 5) % 16)
    else (Nat.xor c (Nat.lor b (wnot d)), (7 * i) % 16)
  let f := wadd (wadd (wadd fg.1 a) (kTable.getD i 0)) (chunkWord chunk fg.2)
  (d, wadd b (rotl32 f (sTable.getD i 0)), b, c)

/-- Process one 64-byte chunk, adding the result into the accumulator. -/
def md5Chunk (acc : Nat × Nat × Nat × Nat) (chunk : List Nat) :
    Nat × Nat × Nat × Nat :=
  let (a0, b0, c0, d0) := acc
  let (a, b, c, d) := (List.range 64).foldl (md5Op chunk) (a0, b0, c0, d0)
  (wadd a0 a, wadd b0 b, wadd c0 c, wadd d0 d)

/-- Split a byte list into 64-byte chunks (structural recursion on a fuel
bound so that the definition reduces inside the kernel; `fuel = l.length`
suffices because every step consumes at least one byte). -/
def chunks64Fuel : Nat → List Nat → List (List Nat)
  | 0, _ => []
  | _, [] => []
  | fuel + 1, l => (l.take 64) :: chunks64Fuel fuel (l.drop 64)

/-- Split a byte list into 64-byte chunks. -/
def chunks64 (l : List Nat) : List (List Nat) :=
  chunks64Fuel l.length l

/-- MD5 padding: a 1-bit, zeros to 56 mod 64, then the 64-bit LE bit length. -/
def md5Pad (msg : List Nat) : List Nat :=
  msg ++ [128] ++ List.replicate ((64 + 56 - (msg.length + 1) % 64) % 64) 0 ++
    leBytes 8 (msg.length * 8)

/-- The MD5 digest (16 bytes) of a byte sequence, modelling `crypto/md5`'s
`md5.Sum`. -/
def md5 (msg : List Nat) : List Nat :=
  let (a, b, c, d) :=
    (chunks64 (md5Pad msg)).foldl md5Chunk
      (1732584193, 4023233417, 2562383102, 271733878)
  leBytes 4 a ++ leBytes 4 b ++ leBytes 4 c ++ leBytes 4 d

end Tyk.MD5

namespace Tyk

/-- UTF-8 encoding of one character (Go strings are UTF-8 byte sequences). -/
def charUTF8 (c : Char) : List Nat :=
  let n := c.toNat
  if n < 128 then [n]
  else if n < 2048 then [192 + n / 64, 128 + n % 64]
  else if n < 65536 then [224 + n / 4096, 128 + (n / 64) % 64, 128 + n % 64]
  else [240 + n / 262144, 128 + (n / 4096) % 64, 128 + (n / 64) % 64, 128 + n % 64]

/-- The bytes of a Go string (`[]byte(s)`): its UTF-8 encoding. -/
def strBytes (s : String) : List Nat :=
  s.data.flatMap charUTF8

/-- Lowercase hexadecimal rendering of a byte sequence, modelling
`fmt.Sprintf("%x", ...)` on a byte array. -/
def hexLower (bs : List Nat) : String :=
  String.mk (bs.flatMap (fun b => [Nat.digitChar ((b / 16) % 16), Nat.digitChar (b % 16)]))

end Tyk

namespace Tyk

/-- `const APISessionKeySuffix = ".API-"`. -/
def APISessionKeySuffix : String := ".API-"

/-- Translation of `TykMiddleware.ApplyPolicyIfExists` (handler_success /
middleware file): if the session carries an `ApplyPolicyID`, look the policy
up in the registry and, when it exists and belongs to the API's organisation,
overwrite the session's limit fields with the policy's values, optionally
strip the transient policy ID, and persist the result in the session store.
Returns the (possibly updated) session and session store. -/
def ApplyPolicyIfExists (cfg : Env) (key : String) (thisSession : SessionState)
    (stripPolicyID : Bool) (store : Store) : SessionState × Store :=
  if thisSession.applyPolicyID = "" then (thisSession, store)
  else
    match assocLookup cfg.policies thisSession.applyPolicyID with
    | none => (thisSession, store)
    | some policy =>
      -- policy org owner must be the same as the API, otherwise skip
      if policy.orgID ≠ cfg.orgID then (thisSession, store)
      else
        let s : SessionState :=
          { thisSession with
            allowance := policy.rate
            rate := policy.rate
            per := policy.per
            quotaMax := policy.quotaMax
            quotaRenewalRate := policy.quotaRenewalRate
            policyPerAPI := policy.policyPerAPI
            accessRights := policy.accessRights
            hmacEnabled := policy.hmacEnabled
            isInactive := policy.isInactive
            tags := policy.tags
            applyPolicyID := if stripPolicyID then "" else thisSession.applyPolicyID }
        (s, storeSet store key s)

/-- Translation of `checkSessionAndValidateKey`: the local-cache →
session-store → auth-store fallback ladder.  The asynchronous cache
population (`go SessionCache.Set`) is modelled by the `lands` flag: `true`
means the background write has taken effect before the next read, `false`
that it has not. -/
def checkSessionAndValidateKey (cfg : Env) (lands : Bool) (key : String)
    (st : GwState) : (SessionState × Bool) × GwState :=
  -- 1. Check in-memory cache
  match (if cfg.disableCacheSessionState then none else storeGet st.cache key) with
  | some cached =>
    let r := ApplyPolicyIfExists cfg key cached false st.store
    ((r.1, true), { st with store := r.2 })
  | none =>
    -- 2. Check session store
    match storeGet st.store key with
    | some found =>
      let cache' := if lands then storeSet st.cache key found else st.cache
      let r := ApplyPolicyIfExists cfg key found false st.store
      ((r.1, true), { cache := cache', store := r.2, auth := st.auth })
    | none =>
      -- 3. If not there, get it from the AuthorizationHandler
      match storeGet st.auth key with
      | some found =>
        let cache' := if lands then storeSet st.cache key found else st.cache
        let r := ApplyPolicyIfExists cfg key found false st.store
        -- recreate the session with a new TTL
        ((r.1, true), { cache := cache', store := storeSet r.2 key r.1, auth := st.auth })
      | none => ((SessionState.zero, false), st)

/-- Translation of `TykMiddleware.CheckSessionAndIdentityForValidKey`:
resolve the base session; when it declares a per-API policy for the current
API, make sure a per-API sub-session exists (materialising one from the
policy when it does not); always return the base session. -/
def CheckSessionAndIdentityForValidKey (cfg : Env) (lands : Bool) (key : String)
    (st : GwState) : (SessionState × Bool) × GwState :=
  -- 1. Try and get the base session
  let b := checkSessionAndValidateKey cfg lands key st
  let baseSession := b.1.1
  let baseFound := b.1.2
  let st1 := b.2
  -- 2. If base session has policy_per_api map for current API being requested
  if baseFound then
    match baseSession.policyPerAPI with
    | none => ((baseSession, baseFound), st1)
    | some m =>
      let apiPolicyID := lookupStr m cfg.apiID
      if apiPolicyID ≠ "" then
        let apiSessionKey := key ++ APISessionKeySuffix ++ cfg.apiID
        let p := checkSessionAndValidateKey cfg lands apiSessionKey st1
        if ¬p.1.2 then
          -- create a per-api session to track policy at the API level
          let perApiSession := { p.1.1 with applyPolicyID := apiPolicyID }
          let r := ApplyPolicyIfExists cfg apiSessionKey perApiSession true p.2.store
          ((baseSession, baseFound), { p.2 with store := r.2 })
        else ((baseSession, baseFound), p.2)
      else ((baseSession, baseFound), st1)
  else ((baseSession, baseFound), st1)

end Tyk

namespace Tyk

/-- Go `strings.ToLower`, modelled over the character list (so that it
reduces inside the kernel). -/
def goToLower (s : String) : String := String.mk (s.data.map Char.toLower)

/-- Go `strings.HasPrefix`, modelled over the character lists. -/
def goStartsWith (s p : String) : Bool := p.data.isPrefixOf s.data

/-- A JSON Web Key, translated from `type JWK struct`. -/
structure JWK where
  alg : String
  kty : String
  use : String
  x5c : List String
  n : String
  e : String
  kid : String
  x5t : String
deriving DecidableEq, Repr

/-- A JSON Web Key set, translated from `type JWKs struct`. -/
structure JWKs where
  keys : List JWK
deriving DecidableEq, Repr

/-- Outcomes of the external library calls made by the JWT middleware on one
request: the HTTP GET of the JWKS document, the body read, the JSON decode of
the body, and base64 decoding.  These are parameters of the embedding; the
control flow around them is translated from the source. -/
structure FetchEnv where
  cachedJWK : Option JWKs
  httpResult : Except String Unit
  readResult : Except String (List Nat)
  decode : List Nat → Except String JWKs
  b64dec : String → Except String (List Nat)

/-- A Go `([]byte, error)` pair: both components may independently be nil. -/
def GoBytesErr : Type := Option (List Nat) × Option String

instance : DecidableEq GoBytesErr := by unfold GoBytesErr; infer_instance

/-- The key-scanning loop of `getSecretFromURL`: find the first JWK whose
`kid` matches and whose key type matches case-insensitively; use the first
certificate of its chain. -/
def scanJWKeys (env : FetchEnv) (kid keyType : String) : List JWK → GoBytesErr
  | [] => (none, some "No matching KID could be found")
  | k :: rest =>
    if k.kid = kid ∧ goToLower k.kty = goToLower keyType then
      match k.x5c with
      | [] => (none, some "No certificates in JWK!")
      | c :: _ =>
        match env.b64dec c with
        | .error e => (none, some e)
        | .ok decodedCert => (some decodedCert, none)
    else scanJWKeys env kid keyType rest

/-- Translation of `JWTMiddleware.getSecretFromURL`.  Returns the Go result
pair together with the JWK-set the cache holds for the API afterwards.  On a
JSON decode failure the source executes `return nil, err` where `err` is the
(nil) error of the preceding `ioutil.ReadAll` call, so the function yields a
nil secret with a nil error. -/
def getSecretFromURL (env : FetchEnv) (kid keyType : String) :
    GoBytesErr × Option JWKs :=
  match env.cachedJWK with
  | none =>
    match env.httpResult with
    | .error e => ((none, some e), none)
    | .ok _ =>
      match env.readResult with
      | .error e => ((none, some e), none)
      | .ok contents =>
        match env.decode contents with
        | .error _ => ((none, none), none)  -- `return nil, err` with err == nil
        | .ok thisJWKSet =>
          (scanJWKeys env kid keyType thisJWKSet.keys, some thisJWKSet)
  | some thisJWKSet => (scanJWKeys env kid keyType thisJWKSet.keys, some thisJWKSet)

/-- Translation of `getIdentityFomToken`: the `kid` header if present,
otherwise the `sub` claim. -/
def getIdentityFomToken (header claims : List (String × String)) : Option String :=
  match assocLookup header "kid" with
  | some tykId => some tykId
  | none => assocLookup claims "sub"

/-- Result of `getSecret`, distinguishing a Go error return from a runtime
panic caused by an unchecked interface type assertion. -/
inductive SecretResult where
  | ok (secret : List Nat)
  | goErr (msg : String)
  | panicked (msg : String)
deriving DecidableEq, Repr

/-- Translation of `JWTMiddleware.getSecret`.  In central-authority mode with
a URL source, the source reads `token.Header["kid"].(string)` with no
presence check: on a token without a `kid` header the type assertion panics. -/
def getSecret (cfg : Env) (env : FetchEnv) (lands : Bool)
    (header claims : List (String × String)) (st : GwState) :
    SecretResult × GwState :=
  if cfg.jwtSource ≠ "" then
    if goStartsWith (goToLower cfg.jwtSource) "http://" ∨
        goStartsWith (goToLower cfg.jwtSource) "https://" then
      match assocLookup header "kid" with
      | none => (.panicked "interface conversion: interface {} is nil, not string", st)
      | some kid =>
        match (getSecretFromURL env kid cfg.jwtSigningMethod).1 with
        | (_, some urlErr) => (.goErr urlErr, st)
        | (secret, none) => (.ok (secret.getD []), st)
    else
      match env.b64dec cfg.jwtSource with
      | .error e => (.goErr e, st)
      | .ok decodedCert => (.ok decodedCert, st)
  else
    match getIdentityFomToken header claims with
    | none => (.goErr "Key ID not found", st)
    | some tykId =>
      let r := CheckSessionAndIdentityForValidKey cfg lands tykId st
      if r.1.2 then (.ok (strBytes r.1.1.jwtDataSecret), r.2)
      else (.goErr "Token invalid, key not found.", r.2)

/-- Outcome of the central-authority branch of `JWTMiddleware.ProcessRequest`:
either a session bound to the request context under a session ID, or an HTTP
rejection. -/
inductive CAOutcome where
  | ok (sess : SessionState) (sid : String)
  | reject (msg : String) (code : Nat)
deriving DecidableEq, Repr

/-- The identity base field of the token: the configured claim, falling back
to `sub` (translation of part of `ProcessRequest`). -/
def baseFieldOf (cfg : Env) (claims : List (String × String)) : Option String :=
  match assocLookup claims cfg.jwtIdentityBaseField with
  | some d => some d
  | none => assocLookup claims "sub"

/-- The synthesized session ID: `OrgID + fmt.Sprintf("%x", md5.Sum(data))`. -/
def sessionIDOf (cfg : Env) (baseFieldData : String) : String :=
  cfg.orgID ++ hexLower (MD5.md5 (strBytes baseFieldData))

/-- Translation of the central-authority branch of
`JWTMiddleware.ProcessRequest` (the `JWTSource != ""` path taken after
successful signature verification): synthesize a deterministic session ID
from the identity base field, resolve it, and on a miss build a session from
the policy claim, refusing cross-organisation policies. -/
def processCentralAuth (cfg : Env) (lands : Bool)
    (claims : List (String × String)) (st : GwState) : CAOutcome × GwState :=
  match baseFieldOf cfg claims with
  | none => (.reject "Key not authorized" 403, st)
  | some baseFieldData =>
    let sessionID := sessionIDOf cfg baseFieldData
    let r := CheckSessionAndIdentityForValidKey cfg lands sessionID st
    let st1 := r.2
    if r.1.2 then (.ok r.1.1 sessionID, st1)
    else
      match assocLookup claims cfg.jwtPolicyFieldName with
      | none => (.reject "Key not authorized: no matching policy" 403, st1)
      | some basePolicyID =>
        match assocLookup cfg.policies basePolicyID with
        | none => (.reject "Key not authorized: no matching policy" 403, st1)
        | some policy =>
          -- policy org owner must be the same as the API
          if policy.orgID ≠ cfg.orgID then
            (.reject "Key not authorized: no matching policy" 403, st1)
          else
            let s : SessionState :=
              { SessionState.zero with
                allowance := policy.rate
                rate := policy.rate
                per := policy.per
                quotaMax := policy.quotaMax
                quotaRenewalRate := policy.quotaRenewalRate
                policyPerAPI := policy.policyPerAPI
                accessRights := policy.accessRights
                hmacEnabled := policy.hmacEnabled
                isInactive := policy.isInactive
                tags := policy.tags }
            (.ok s sessionID, { st1 with store := storeSet st1.store sessionID s })

end Tyk

namespace Tyk

/-- The limiter (`SessionLimiter.ForwardMessage`), an external collaborator:
given the key and the session it returns the session with updated counters,
whether the request may be forwarded, and a reason code
(1 = rate exceeded, 2 = quota exceeded). -/
def Limiter : Type := String → SessionState → SessionState × Bool × Nat

/-- The observable outcome of the rate-limit middleware on one request. -/
structure RLResult where
  err : Option String
  code : Nat
  event : Option String
  health : Option String
  monitorRan : Bool
  store : Store
  ctxSessionData : Option SessionState
deriving DecidableEq, Repr

/-- Translation of `applyRateLimiting`: run the limiter, persist the updated
session and bind it to the request context (synchronously unless
`UseAsyncSessionWrite`; the `asyncLands` flag models whether the fire-and-
forget background writes have taken effect), then map the limiter verdict to
an HTTP outcome, events and health samples. -/
def applyRateLimiting (limiter : Limiter) (useAsyncSessionWrite asyncLands
    monitorUserKeys : Bool) (key : String) (thisSessionState : SessionState)
    (store : Store) (ctx : Option SessionState) : RLResult :=
  let r := limiter key thisSessionState
  let s := r.1
  let forwardMessage := r.2.1
  let reason := r.2.2
  -- Ensure quota and rate data for this session are recorded
  let store' := if ¬useAsyncSessionWrite then storeSet store key s
    else if asyncLands then storeSet store key s else store
  let ctx' := if ¬useAsyncSessionWrite then some s
    else if asyncLands then some s else ctx
  if ¬forwardMessage then
    if reason = 1 then
      { err := some "Rate limit exceeded", code := 429
      , event := some "RateLimitExceeded", health := some "Throttle"
      , monitorRan := false, store := store', ctxSessionData := ctx' }
    else if reason = 2 then
      { err := some "Quota exceeded", code := 403
      , event := some "QuotaExceeded", health := some "QuotaViolation"
      , monitorRan := false, store := store', ctxSessionData := ctx' }
    else
      { err := some "Access denied", code := 403, event := none, health := none
      , monitorRan := false, store := store', ctxSessionData := ctx' }
  else
    { err := none, code := 200, event := none, health := none
    , monitorRan := monitorUserKeys, store := store', ctxSessionData := ctx' }

/-- The session/key selection at the head of
`RateLimitAndQuotaCheck.ProcessRequest`: when the base session's
`PolicyPerAPI` map is non-nil and the session store holds a per-API session
under `authKey + ".API-" + apiID`, limit that session under the per-API key;
otherwise limit the base session under the base key. -/
def rlSelectSession (apiID authHeaderValue : String)
    (thisSessionState : SessionState) (store : Store) : String × SessionState :=
  match thisSessionState.policyPerAPI with
  | some _ =>
    let apiSessionKey := authHeaderValue ++ APISessionKeySuffix ++ apiID
    match storeGet store apiSessionKey with
    | some perAPISession => (apiSessionKey, perAPISession)
    | none => (authHeaderValue, thisSessionState)
  | none => (authHeaderValue, thisSessionState)

/-- Translation of `RateLimitAndQuotaCheck.ProcessRequest`: select base or
per-API session, then apply the limiter logic to it. -/
def rateLimitProcessRequest (limiter : Limiter) (useAsyncSessionWrite asyncLands
    monitorUserKeys : Bool) (apiID : String) (thisSessionState : SessionState)
    (authHeaderValue : String) (store : Store) (ctx : Option SessionState) :
    RLResult :=
  let sel := rlSelectSession apiID authHeaderValue thisSessionState store
  applyRateLimiting limiter useAsyncSessionWrite asyncLands monitorUserKeys
    sel.1 sel.2 store ctx

/-- Translation of `LoadPoliciesFromFile`: the file read and the JSON
unmarshal are external-library parameters; `unmarshal` returns the optional
decode error together with the map contents after the call (starting from the
empty map the function allocates, and possibly partially populated on
error). -/
def LoadPoliciesFromFile (readFile : String → Except String (List Nat))
    (unmarshal : List Nat → Option String × List (String × Policy))
    (filePath : String) : List (String × Policy) :=
  match readFile filePath with
  | .error _ => []  -- read failure: log and return the empty map
  | .ok policyConfig =>
    let u := unmarshal policyConfig
    -- an unmarshal failure is only logged; the map is returned regardless
    u.2

end Tyk

namespace Tyk

/-- Sample policy owned by organisation `O1`. -/
def pol1 : Policy :=
  { id := "P1", orgID := "O1", rate := 5, per := 60, quotaMax := 100
  , quotaRenewalRate := 3600, policyPerAPI := none
  , accessRights := [("A1", ⟨"v1"⟩)], hmacEnabled := true, active := true
  , isInactive := false, tags := ["t1"], keyExpiresIn := 0 }

/-- Sample policy owned by a different organisation `O2`. -/
def pol2 : Policy :=
  { pol1 with id := "P2", orgID := "O2" }

/-- Sample API environment: organisation `O1`, API `A1`, central JWT source. -/
def env1 : Env :=
  { apiID := "A1", orgID := "O1", policies := [("P1", pol1), ("P2", pol2)]
  , disableCacheSessionState := false, jwtIdentityBaseField := "email"
  , jwtPolicyFieldName := "pol", jwtSource := "http://idp/jwks"
  , jwtSigningMethod := "rsa" }

def stEmpty : GwState := { cache := [], store := [], auth := [] }

/-- A session carrying a cross-organisation transient policy ID. -/
def sessP2W : SessionState := { SessionState.zero with applyPolicyID := "P2" }

def claimsC1W : List (String × String) := [("email", "a@x"), ("pol", "P2")]

def claimsC3W : List (String × String) := [("email", "a@x"), ("pol", "P1")]

/-- The session a synthesis or per-API materialisation builds from `pol1`. -/
def sessPol1W : SessionState :=
  { SessionState.zero with
    allowance := 5, rate := 5, per := 60, quotaMax := 100
  , quotaRenewalRate := 3600, policyPerAPI := none
  , accessRights := [("A1", ⟨"v1"⟩)], hmacEnabled := true, isInactive := false
  , tags := ["t1"] }

/-- `env1.orgID ++ hex_lower(md5("a@x"))`. -/
def sidC3W : String := "O1" ++ "4895b1d4ed83c6da448e89f72e1103a0"

def stC3W : GwState := { cache := [], store := [(sidC3W, sessPol1W)], auth := [] }

def sessBaseW : SessionState :=
  { SessionState.zero with policyPerAPI := some [("A1", "P1")] }

def stC4W : GwState := { cache := [], store := [("k", sessBaseW)], auth := [] }

/-- A base session naming a policy absent from the registry. -/
def sessBaseMissW : SessionState :=
  { SessionState.zero with policyPerAPI := some [("A1", "Pmissing")] }

def stC4CE : GwState := { cache := [], store := [("kc", sessBaseMissW)], auth := [] }

/-- A base session whose per-API policy map has no entry for API `A1`. -/
def sessPBW : SessionState :=
  { SessionState.zero with policyPerAPI := some [("B", "PB")] }

def perAW : SessionState := { SessionState.zero with rate := 42 }

def storeC5W : Store := [("k" ++ APISessionKeySuffix ++ "A1", perAW)]

/-- Fetch environment: HTTP and body read succeed, JSON decode fails. -/
def fenvC2W : FetchEnv :=
  { cachedJWK := none, httpResult := .ok (), readResult := .ok [110, 111]
  , decode := fun _ => .error "invalid character in JWKS body"
  , b64dec := fun _ => .error "illegal base64 data" }

/-- Sample limiter verdicts. -/
def limAllowW : Limiter := fun _ s => (s, true, 0)

def limRateW : Limiter := fun _ s => (s, false, 1)

def limQuotaW : Limiter := fun _ s => (s, false, 2)

def limDenyW : Limiter := fun _ s => (s, false, 7)

/-- Sample file reads and JSON unmarshal outcomes for the policy loader. -/
def readErrW : String → Except String (List Nat) :=
  fun _ => .error "no such file or directory"

def readOkW : String → Except String (List Nat) := fun _ => .ok [123, 125]

def unmarshalOkW : List Nat → Option String × List (String × Policy) :=
  fun _ => (none, [("P1", pol1)])

def unmarshalErrW : List Nat → Option String × List (String × Policy) :=
  fun _ => (some "unexpected end of JSON input", [])

theorem storeGet_storeSet_self (st : Store) (k : String) (v : SessionState) :
    storeGet (storeSet st k v) k = some v := by
  simp [storeGet, storeSet, assocLookup]

theorem storeGet_storeSet_ne (st : Store) (k k' : String) (v : SessionState)
    (h : k' ≠ k) : storeGet (storeSet st k' v) k = storeGet st k := by
  simp [storeGet, storeSet, assocLookup, h]

/-- The session returned by the policy overlay does not depend on the store
it writes through. -/
theorem ApplyPolicyIfExists_fst_indep (cfg : Env) (key : String)
    (s : SessionState) (strip : Bool) (store store' : Store) :
    (ApplyPolicyIfExists cfg key s strip store).1
      = (ApplyPolicyIfExists cfg key s strip store').1 := by
  unfold ApplyPolicyIfExists
  split
  · rfl
  · split
    · rfl
    · split
      · rfl
      · rfl

/-- After the overlay runs on a session the store already held at `key`, the
store holds exactly the session the overlay returned. -/
theorem ApplyPolicyIfExists_storeGet_self (cfg : Env) (key : String)
    (s : SessionState) (strip : Bool) (store : Store)
    (h : storeGet store key = some s) :
    storeGet (ApplyPolicyIfExists cfg key s strip store).2 key
      = some (ApplyPolicyIfExists cfg key s strip store).1 := by
  unfold ApplyPolicyIfExists
  split
  · exact h
  · split
    · exact h
    · split
      · exact h
      · exact storeGet_storeSet_self _ _ _

/-- The overlay writes the store only at its own key. -/
theorem ApplyPolicyIfExists_frame (cfg : Env) (key2 : String) (s : SessionState)
    (strip : Bool) (store : Store) (k : String) (h : k ≠ key2) :
    storeGet (ApplyPolicyIfExists cfg key2 s strip store).2 k
      = storeGet store k := by
  unfold ApplyPolicyIfExists
  split
  · rfl
  · split
    · rfl
    · split
      · rfl
      · exact storeGet_storeSet_ne _ _ _ _ (Ne.symm h)

/-- The non-stripping policy overlay is idempotent on the session value. -/
theorem ApplyPolicyIfExists_fst_idem (cfg : Env) (key : String)
    (s : SessionState) (store store' : Store) :
    (ApplyPolicyIfExists cfg key
        (ApplyPolicyIfExists cfg key s false store).1 false store').1
      = (ApplyPolicyIfExists cfg key s false store).1 := by
  by_cases h0 : s.applyPolicyID = ""
  · simp [ApplyPolicyIfExists, h0]
  · cases hp : assocLookup cfg.policies s.applyPolicyID with
    | none => simp [ApplyPolicyIfExists, h0, hp]
    | some p =>
      by_cases ho : p.orgID = cfg.orgID
      · simp [ApplyPolicyIfExists, h0, hp, ho]
      · simp [ApplyPolicyIfExists, h0, hp, ho]

end Tyk

namespace Tyk

/-- Resolving the same key immediately again — whether or not the background
cache population of either call has landed — returns the same session and
found flag. -/
theorem checkSessionAndValidateKey_idem (cfg : Env) (b1 b2 : Bool) (key : String)
    (st : GwState) :
    (checkSessionAndValidateKey cfg b2 key
        (checkSessionAndValidateKey cfg b1 key st).2).1
      = (checkSessionAndValidateKey cfg b1 key st).1 := by
  cases hdis : cfg.disableCacheSessionState with
  | true =>
    cases hs : storeGet st.store key with
    | some found =>
      simp [checkSessionAndValidateKey, hdis, hs,
        ApplyPolicyIfExists_storeGet_self cfg key found false st.store hs]
      exact ApplyPolicyIfExists_fst_idem cfg key found st.store _
    | none =>
      cases ha : storeGet st.auth key with
      | some found =>
        simp [checkSessionAndValidateKey, hdis, hs, ha, storeGet_storeSet_self]
        exact ApplyPolicyIfExists_fst_idem cfg key found st.store _
      | none =>
        simp [checkSessionAndValidateKey, hdis, hs, ha]
  | false =>
    cases hc : storeGet st.cache key with
    | some cached =>
      simp [checkSessionAndValidateKey, hdis, hc]
      exact ApplyPolicyIfExists_fst_indep cfg key cached false _ _
    | none =>
      cases hs : storeGet st.store key with
      | some found =>
        cases hb1 : b1 with
        | true =>
          simp [checkSessionAndValidateKey, hdis, hc, hs, storeGet_storeSet_self]
          exact ApplyPolicyIfExists_fst_indep cfg key found false _ _
        | false =>
          simp [checkSessionAndValidateKey, hdis, hc, hs,
            ApplyPolicyIfExists_storeGet_self cfg key found false st.store hs]
          exact ApplyPolicyIfExists_fst_idem cfg key found st.store _
      | none =>
        cases ha : storeGet st.auth key with
        | some found =>
          cases hb1 : b1 with
          | true =>
            simp [checkSessionAndValidateKey, hdis, hc, hs, ha, storeGet_storeSet_self]
            exact ApplyPolicyIfExists_fst_indep cfg key found false _ _
          | false =>
            simp [checkSessionAndValidateKey, hdis, hc, hs, ha, storeGet_storeSet_self]
            exact ApplyPolicyIfExists_fst_idem cfg key found st.store _
        | none =>
          simp [checkSessionAndValidateKey, hdis, hc, hs, ha]

/-- The session/found pair returned by the resolution ladder depends only on
the three stores' entries at the resolved key. -/
theorem checkSessionAndValidateKey_fst_congr (cfg : Env) (b b' : Bool)
    (key : String) (st st' : GwState)
    (hc : storeGet st.cache key = storeGet st'.cache key)
    (hs : storeGet st.store key = storeGet st'.store key)
    (ha : storeGet st.auth key = storeGet st'.auth key) :
    (checkSessionAndValidateKey cfg b key st).1
      = (checkSessionAndValidateKey cfg b' key st').1 := by
  unfold checkSessionAndValidateKey
  rw [hc, hs, ha]
  cases hdis : cfg.disableCacheSessionState with
  | true =>
    cases hs' : storeGet st'.store key with
    | some found =>
      simp [hdis, hs']
      exact ApplyPolicyIfExists_fst_indep cfg key found false _ _
    | none =>
      cases ha' : storeGet st'.auth key with
      | some found =>
        simp [hdis, hs', ha']
        exact ApplyPolicyIfExists_fst_indep cfg key found false _ _
      | none => simp [hdis, hs', ha']
  | false =>
    cases hc' : storeGet st'.cache key with
    | some cached =>
      simp [hdis, hc']
      exact ApplyPolicyIfExists_fst_indep cfg key cached false _ _
    | none =>
      cases hs' : storeGet st'.store key with
      | some found =>
        simp [hdis, hc', hs']
        exact ApplyPolicyIfExists_fst_indep cfg key found false _ _
      | none =>
        cases ha' : storeGet st'.auth key with
        | some found =>
          simp [hdis, hc', hs', ha']
          exact ApplyPolicyIfExists_fst_indep cfg key found false _ _
        | none => simp [hdis, hc', hs', ha']

/-- The resolution ladder touches the stores only at its own key. -/
theorem checkSessionAndValidateKey_frame (cfg : Env) (b : Bool) (key2 : String)
    (st : GwState) (k : String) (h : k ≠ key2) :
    storeGet (checkSessionAndValidateKey cfg b key2 st).2.cache k
        = storeGet st.cache k ∧
    storeGet (checkSessionAndValidateKey cfg b key2 st).2.store k
        = storeGet st.store k ∧
    (checkSessionAndValidateKey cfg b key2 st).2.auth = st.auth := by
  have hframe := ApplyPolicyIfExists_frame cfg key2
  have hset := storeGet_storeSet_ne
  unfold checkSessionAndValidateKey
  cases hdis : cfg.disableCacheSessionState with
  | true =>
    cases hs : storeGet st.store key2 with
    | some found =>
      cases b with
      | true =>
        simp [hdis, hs, hset _ k key2 _ (Ne.symm h),
          hframe found false st.store k h]
      | false => simp [hdis, hs, hframe found false st.store k h]
    | none =>
      cases ha : storeGet st.auth key2 with
      | some found =>
        cases b with
        | true =>
          simp [hdis, hs, ha, hset _ k key2 _ (Ne.symm h),
            hframe found false st.store k h]
        | false =>
          simp [hdis, hs, ha, hset _ k key2 _ (Ne.symm h),
            hframe found false st.store k h]
      | none => simp [hdis, hs, ha]
  | false =>
    cases hc : storeGet st.cache key2 with
    | some cached => simp [hdis, hc, hframe cached false st.store k h]
    | none =>
      cases hs : storeGet st.store key2 with
      | some found =>
        cases b with
        | true =>
          simp [hdis, hc, hs, hset _ k key2 _ (Ne.symm h),
            hframe found false st.store k h]
        | false => simp [hdis, hc, hs, hframe found false st.store k h]
      | none =>
        cases ha : storeGet st.auth key2 with
        | some found =>
          cases b with
          | true =>
            simp [hdis, hc, hs, ha, hset _ k key2 _ (Ne.symm h),
              hframe found false st.store k h]
          | false =>
            simp [hdis, hc, hs, ha, hset _ k key2 _ (Ne.symm h),
              hframe found false st.store k h]
        | none => simp [hdis, hc, hs, ha]

end Tyk

namespace Tyk

theorem key_ne_apiSessionKey (key apiID : String) :
    key ≠ key ++ APISessionKeySuffix ++ apiID := by
  intro h
  have hl := congrArg String.length h
  have h5 : APISessionKeySuffix.length = 5 := by decide
  simp [String.length_append, h5] at hl
  omega

/-- Resolution always hands back exactly the base session and found flag. -/
theorem CheckSessionAndIdentityForValidKey_fst (cfg : Env) (b : Bool)
    (key : String) (st : GwState) :
    (CheckSessionAndIdentityForValidKey cfg b key st).1
      = (checkSessionAndValidateKey cfg b key st).1 := by
  rcases hr : checkSessionAndValidateKey cfg b key st with ⟨⟨bs, bf⟩, st1⟩
  simp only [CheckSessionAndIdentityForValidKey, hr]
  split
  · split
    · rfl
    · split
      · split
        · rfl
        · rfl
      · rfl
  · rfl

/-- Per-API materialisation only touches the stores away from the base key. -/
theorem CheckSessionAndIdentityForValidKey_state_at_key (cfg : Env) (b : Bool)
    (key : String) (st : GwState) :
    storeGet (CheckSessionAndIdentityForValidKey cfg b key st).2.cache key
        = storeGet (checkSessionAndValidateKey cfg b key st).2.cache key ∧
    storeGet (CheckSessionAndIdentityForValidKey cfg b key st).2.store key
        = storeGet (checkSessionAndValidateKey cfg b key st).2.store key ∧
    (CheckSessionAndIdentityForValidKey cfg b key st).2.auth
        = (checkSessionAndValidateKey cfg b key st).2.auth := by
  have hne := key_ne_apiSessionKey key cfg.apiID
  rcases hr : checkSessionAndValidateKey cfg b key st with ⟨⟨bs, bf⟩, st1⟩
  simp only [CheckSessionAndIdentityForValidKey, hr]
  split
  · split
    · exact ⟨rfl, rfl, rfl⟩
    · split
      · have hfr := checkSessionAndValidateKey_frame cfg b
          (key ++ APISessionKeySuffix ++ cfg.apiID) st1 key hne
        split
        · refine ⟨hfr.1, ?_, hfr.2.2⟩
          rw [ApplyPolicyIfExists_frame cfg _ _ _ _ key hne]
          exact hfr.2.1
        · exact ⟨hfr.1, hfr.2.1, hfr.2.2⟩
      · exact ⟨rfl, rfl, rfl⟩
  · exact ⟨rfl, rfl, rfl⟩

theorem CheckSessionAndIdentityForValidKey_idem (cfg : Env) (b1 b2 : Bool)
    (key : String) (st : GwState) :
    (CheckSessionAndIdentityForValidKey cfg b2 key
        (CheckSessionAndIdentityForValidKey cfg b1 key st).2).1
      = (CheckSessionAndIdentityForValidKey cfg b1 key st).1 := by
  have h1 := CheckSessionAndIdentityForValidKey_state_at_key cfg b1 key st
  rw [CheckSessionAndIdentityForValidKey_fst, CheckSessionAndIdentityForValidKey_fst]
  calc (checkSessionAndValidateKey cfg b2 key
          (CheckSessionAndIdentityForValidKey cfg b1 key st).2).1
      = (checkSessionAndValidateKey cfg b2 key
          (checkSessionAndValidateKey cfg b1 key st).2).1 := by
        exact checkSessionAndValidateKey_fst_congr cfg b2 b2 key _ _
          h1.1 h1.2.1 (by rw [h1.2.2])
    _ = (checkSessionAndValidateKey cfg b1 key st).1 :=
        checkSessionAndValidateKey_idem cfg b1 b2 key st

end Tyk

namespace Tyk

/-- A failed resolution returns the zero session and leaves state unchanged. -/
theorem checkSessionAndValidateKey_notFound (cfg : Env) (b : Bool)
    (key : String) (st : GwState)
    (h : (checkSessionAndValidateKey cfg b key st).1.2 = false) :
    (checkSessionAndValidateKey cfg b key st).1.1 = SessionState.zero ∧
    (checkSessionAndValidateKey cfg b key st).2 = st := by
  cases hdis : cfg.disableCacheSessionState with
  | true =>
    cases hs : storeGet st.store key with
    | some found => simp [checkSessionAndValidateKey, hdis, hs] at h
    | none =>
      cases ha : storeGet st.auth key with
      | some found => simp [checkSessionAndValidateKey, hdis, hs, ha] at h
      | none => simp [checkSessionAndValidateKey, hdis, hs, ha]
  | false =>
    cases hc : storeGet st.cache key with
    | some cached => simp [checkSessionAndValidateKey, hdis, hc] at h
    | none =>
      cases hs : storeGet st.store key with
      | some found => simp [checkSessionAndValidateKey, hdis, hc, hs] at h
      | none =>
        cases ha : storeGet st.auth key with
        | some found => simp [checkSessionAndValidateKey, hdis, hc, hs, ha] at h
        | none => simp [checkSessionAndValidateKey, hdis, hc, hs, ha]

/-- A failed full resolution leaves the state unchanged. -/
theorem CheckSessionAndIdentityForValidKey_notFound_state (cfg : Env) (b : Bool)
    (key : String) (st : GwState)
    (h : (CheckSessionAndIdentityForValidKey cfg b key st).1.2 = false) :
    (CheckSessionAndIdentityForValidKey cfg b key st).2 = st := by
  have hf := CheckSessionAndIdentityForValidKey_fst cfg b key st
  have h2 : (checkSessionAndValidateKey cfg b key st).1.2 = false := by
    rw [← hf]; exact h
  have hst := (checkSessionAndValidateKey_notFound cfg b key st h2).2
  rcases hr : checkSessionAndValidateKey cfg b key st with ⟨⟨bs, bf⟩, st1⟩
  have hbf : bf = false := by rw [hr] at h2; exact h2
  rw [hr] at hst
  simp only [CheckSessionAndIdentityForValidKey, hr, hbf]
  simp [hst]

end Tyk

namespace Tyk

/-- C1: cross-organisation policies are never applied.  (a) When the policy a
session names belongs to a different organisation, `ApplyPolicyIfExists`
returns the session exactly as it was and does not write the session store;
(b) the central-authority synthesis path rejects a cross-organisation policy
with `Key not authorized: no matching policy` (403) and leaves the gateway
state — in particular the SessionStore — unchanged.  Hence any session
modified by the overlay satisfies `policy.org_id == api.org_id`. -/
theorem claim_C1_cross_org_policy_noop :
    (∀ (cfg : Env) (key : String) (s : SessionState) (strip : Bool)
        (store : Store) (p : Policy),
       assocLookup cfg.policies s.applyPolicyID = some p →
       p.orgID ≠ cfg.orgID →
       ApplyPolicyIfExists cfg key s strip store = (s, store)) ∧
    (∀ (cfg : Env) (b : Bool) (claims : List (String × String)) (st : GwState)
        (d pid : String) (p : Policy),
       baseFieldOf cfg claims = some d →
       (CheckSessionAndIdentityForValidKey cfg b (sessionIDOf cfg d) st).1.2 = false →
       assocLookup claims cfg.jwtPolicyFieldName = some pid →
       assocLookup cfg.policies pid = some p →
       p.orgID ≠ cfg.orgID →
       processCentralAuth cfg b claims st
         = (.reject "Key not authorized: no matching policy" 403, st)) := by
  constructor
  · intro cfg key s strip store p hp ho
    simp [ApplyPolicyIfExists, hp, ho]
  · intro cfg b claims st d pid p hbase hnf hpid hpol ho
    have hstate := CheckSessionAndIdentityForValidKey_notFound_state cfg b
      (sessionIDOf cfg d) st hnf
    simp [processCentralAuth, hbase, hnf, hpid, hpol, ho, hstate]

set_option maxRecDepth 100000 in
theorem claim_C1_witness :
    ApplyPolicyIfExists env1 "k" sessP2W true [] = (sessP2W, []) ∧
    processCentralAuth env1 false claimsC1W stEmpty
      = (.reject "Key not authorized: no matching policy" 403, stEmpty) :=
  ⟨claim_C1_cross_org_policy_noop.1 env1 "k" sessP2W true [] pol2
      (by decide) (by decide),
   claim_C1_cross_org_policy_noop.2 env1 false claimsC1W stEmpty "a@x" "P2" pol2
      (by decide) (by decide) (by decide) (by decide) (by decide)⟩

end Tyk

namespace Tyk

/-- C2 (code bug): when the JWKS HTTP GET and body read succeed but the body
fails to decode as a JWKS document, `getSecretFromURL` executes
`return nil, err` where `err` is the nil error of the preceding read, so the
caller receives a nil secret with a nil error instead of an error carrying
the decode cause. -/
theorem claim_C2_decode_error_returns_nil_error :
    ∀ (env : FetchEnv) (kid keyType : String) (contents : List Nat) (e : String),
      env.cachedJWK = none →
      env.httpResult = .ok () →
      env.readResult = .ok contents →
      env.decode contents = .error e →
      (getSecretFromURL env kid keyType).1 = (none, none) := by
  intro env kid keyType contents e h1 h2 h3 h4
  simp [getSecretFromURL, h1, h2, h3, h4]

theorem claim_C2_witness :
    (getSecretFromURL fenvC2W "K1" "rsa").1 = (none, none) :=
  claim_C2_decode_error_returns_nil_error fenvC2W "K1" "rsa" [110, 111]
    "invalid character in JWKS body" rfl rfl rfl rfl

/-- C3: every session bound by the central-authority path is bound under the
session ID `OrgID ++ hex_lower(md5(baseFieldData))`, where `baseFieldData`
is the identity base field of the token (with `sub` fallback). -/
theorem claim_C3_synthesized_session_id :
    ∀ (cfg : Env) (b : Bool) (claims : List (String × String)) (st : GwState)
      (d : String) (sess : SessionState) (sid : String) (st' : GwState),
      baseFieldOf cfg claims = some d →
      processCentralAuth cfg b claims st = (.ok sess sid, st') →
      sid = cfg.orgID ++ hexLower (MD5.md5 (strBytes d)) := by
  intro cfg b claims st d sess sid st' hbase hrun
  simp only [processCentralAuth, hbase] at hrun
  split at hrun
  · simp only [Prod.mk.injEq, CAOutcome.ok.injEq] at hrun
    exact hrun.1.2.symm
  · split at hrun
    · simp at hrun
    · split at hrun
      · simp at hrun
      · split at hrun
        · simp at hrun
        · simp only [Prod.mk.injEq, CAOutcome.ok.injEq] at hrun
          exact hrun.1.2.symm

set_option maxRecDepth 100000 in
theorem claim_C3_witness :
    baseFieldOf env1 claimsC3W = some "a@x" ∧
    sidC3W = env1.orgID ++ hexLower (MD5.md5 (strBytes "a@x")) :=
  ⟨rfl,
   claim_C3_synthesized_session_id env1 false claimsC3W stEmpty "a@x"
     sessPol1W sidC3W stC3W rfl (by decide)⟩

end Tyk

namespace Tyk

/-- C4 counterexample: the claim as stated fails when the policy named by the
per-API map is absent from the registry — the base session is found with
`PolicyPerAPI` set for the current API, yet after one resolution the
SessionStore holds no entry at `key + ".API-" + apiID`. -/
theorem claim_C4_counterexample :
    storeGet (CheckSessionAndIdentityForValidKey env1 false "kc" stC4CE).2.store
        ("kc" ++ APISessionKeySuffix ++ env1.apiID) = none ∧
    (CheckSessionAndIdentityForValidKey env1 false "kc" stC4CE).1
      = (sessBaseMissW, true) ∧
    lookupStr [("A1", "Pmissing")] env1.apiID = "Pmissing" := by decide

/-- C4 (amended): when the base session is found with a non-empty
`PolicyPerAPI` entry for the current API, no per-API session yet resolves,
and the named policy exists in the registry under the API's own organisation,
one call to `CheckSessionAndIdentityForValidKey` materialises in the
SessionStore, at `key + ".API-" + apiID`, a session whose overlayed fields
equal the policy's, and the call returns only the base session. -/
theorem claim_C4_per_api_materialisation :
    ∀ (cfg : Env) (b : Bool) (key : String) (st : GwState)
      (base : SessionState) (st1 : GwState) (m : List (String × String))
      (pid : String) (p : Policy),
      checkSessionAndValidateKey cfg b key st = ((base, true), st1) →
      base.policyPerAPI = some m →
      lookupStr m cfg.apiID = pid →
      pid ≠ "" →
      (checkSessionAndValidateKey cfg b
          (key ++ APISessionKeySuffix ++ cfg.apiID) st1).1.2 = false →
      assocLookup cfg.policies pid = some p →
      p.orgID = cfg.orgID →
      (CheckSessionAndIdentityForValidKey cfg b key st).1 = (base, true) ∧
      storeGet (CheckSessionAndIdentityForValidKey cfg b key st).2.store
          (key ++ APISessionKeySuffix ++ cfg.apiID)
        = some { SessionState.zero with
            allowance := p.rate, rate := p.rate, per := p.per
          , quotaMax := p.quotaMax, quotaRenewalRate := p.quotaRenewalRate
          , policyPerAPI := p.policyPerAPI, accessRights := p.accessRights
          , hmacEnabled := p.hmacEnabled, isInactive := p.isInactive
          , tags := p.tags } := by
  intro cfg b key st base st1 m pid p hr hm hpid hne hnf hpol horg
  subst hpid
  have hzero := (checkSessionAndValidateKey_notFound cfg b
      (key ++ APISessionKeySuffix ++ cfg.apiID) st1 hnf).1
  rcases hp : checkSessionAndValidateKey cfg b
      (key ++ APISessionKeySuffix ++ cfg.apiID) st1 with ⟨⟨ps, pf⟩, st2⟩
  rw [hp] at hnf hzero
  simp only at hnf hzero
  subst hnf
  subst hzero
  simp [CheckSessionAndIdentityForValidKey, hr, hm, hne, hp,
    ApplyPolicyIfExists, hpol, horg, storeGet_storeSet_self, SessionState.zero]

theorem claim_C4_witness :
    (CheckSessionAndIdentityForValidKey env1 false "k" stC4W).1 = (sessBaseW, true) ∧
    storeGet (CheckSessionAndIdentityForValidKey env1 false "k" stC4W).2.store
        ("k" ++ APISessionKeySuffix ++ env1.apiID) = some sessPol1W := by
  have h := claim_C4_per_api_materialisation env1 false "k" stC4W sessBaseW stC4W
    [("A1", "P1")] "P1" pol1 (by decide) (by decide) (by decide) (by decide)
    (by decide) (by decide) (by decide)
  exact ⟨h.1, h.2.trans (by decide)⟩

end Tyk

namespace Tyk

/-- C5 counterexample: the claim as stated fails — here the base session's
`PolicyPerAPI` map has no entry for the current API `A1` (the lookup yields
`""`), yet because the map is non-nil and the SessionStore holds an entry at
`authKey + ".API-" + apiID`, the limiter is applied to that per-API session
under the per-API key instead of to the base session. -/
theorem claim_C5_counterexample :
    rlSelectSession "A1" "k" sessPBW storeC5W
      = ("k" ++ APISessionKeySuffix ++ "A1", perAW) ∧
    lookupStr [("B", "PB")] "A1" = "" ∧
    sessPBW.policyPerAPI = some [("B", "PB")] := by decide

/-- C5 (amended): the limiter is applied to the per-API session under
`authKey + ".API-" + apiID` exactly when the base session's `PolicyPerAPI`
map is non-nil (regardless of whether it has an entry for the current API)
and such a per-API session exists in the SessionStore; in every other case
the limiter is applied to the base session under the base key. -/
theorem claim_C5_per_api_selection :
    ∀ (limiter : Limiter) (ua al mon : Bool) (apiID authKey : String)
      (base : SessionState) (store : Store) (ctx : Option SessionState),
      rateLimitProcessRequest limiter ua al mon apiID base authKey store ctx
        = applyRateLimiting limiter ua al mon
            (rlSelectSession apiID authKey base store).1
            (rlSelectSession apiID authKey base store).2 store ctx ∧
      (base.policyPerAPI = none →
        rlSelectSession apiID authKey base store = (authKey, base)) ∧
      (storeGet store (authKey ++ APISessionKeySuffix ++ apiID) = none →
        rlSelectSession apiID authKey base store = (authKey, base)) ∧
      (∀ (m : List (String × String)) (s : SessionState),
        base.policyPerAPI = some m →
        storeGet store (authKey ++ APISessionKeySuffix ++ apiID) = some s →
        rlSelectSession apiID authKey base store
          = (authKey ++ APISessionKeySuffix ++ apiID, s)) := by
  intro limiter ua al mon apiID authKey base store ctx
  refine ⟨rfl, ?_, ?_, ?_⟩
  · intro h; simp [rlSelectSession, h]
  · intro h
    cases hpp : base.policyPerAPI with
    | none => simp [rlSelectSession, hpp]
    | some m => simp [rlSelectSession, hpp, h]
  · intro m s hm hs; simp [rlSelectSession, hm, hs]

theorem claim_C5_witness :
    rlSelectSession "A1" "k" SessionState.zero [] = ("k", SessionState.zero) ∧
    rlSelectSession "A1" "k" sessPBW storeC5W
      = ("k" ++ APISessionKeySuffix ++ "A1", perAW) :=
  ⟨(claim_C5_per_api_selection limAllowW false false false "A1" "k"
      SessionState.zero [] none).2.1 rfl,
   (claim_C5_per_api_selection limAllowW false false false "A1" "k"
      sessPBW storeC5W none).2.2.2 [("B", "PB")] perAW rfl (by decide)⟩

/-- C6 (code bug): in central-authority mode (`JWTSource` an http URL) a
token whose header has no `kid` makes `getSecret` evaluate the unchecked
type assertion `token.Header["kid"].(string)`, i.e. the run panics instead
of failing with `IdentityNotFound` (403) as the claim requires. -/
theorem claim_C6_missing_kid_panics :
    (getSecret env1 fenvC2W false [("alg", "RS256")] [("sub", "alice")] stEmpty).1
      = SecretResult.panicked "interface conversion: interface {} is nil, not string" ∧
    assocLookup [("alg", "RS256")] "kid" = none ∧
    goStartsWith (goToLower env1.jwtSource) "http://" = true := by decide

/-- C7: the limiter verdict determines the outcome.  Reason 1 yields 429
with a `RateLimitExceeded` event and a `Throttle` health sample; reason 2
yields 403 with a `QuotaExceeded` event and a `QuotaViolation` health
sample; any other not-allowed reason yields 403 access denied with no event
and no health sample; an allowed verdict yields 200. -/
theorem claim_C7_limiter_verdict_outcomes :
    ∀ (limiter : Limiter) (ua al mon : Bool) (key : String) (s : SessionState)
      (store : Store) (ctx : Option SessionState) (s2 : SessionState)
      (fwd : Bool) (reason : Nat),
      limiter key s = (s2, fwd, reason) →
      ((fwd = false → reason = 1 →
        (applyRateLimiting limiter ua al mon key s store ctx).code = 429 ∧
        (applyRateLimiting limiter ua al mon key s store ctx).err
          = some "Rate limit exceeded" ∧
        (applyRateLimiting limiter ua al mon key s store ctx).event
          = some "RateLimitExceeded" ∧
        (applyRateLimiting limiter ua al mon key s store ctx).health
          = some "Throttle") ∧
      (fwd = false → reason = 2 →
        (applyRateLimiting limiter ua al mon key s store ctx).code = 403 ∧
        (applyRateLimiting limiter ua al mon key s store ctx).err
          = some "Quota exceeded" ∧
        (applyRateLimiting limiter ua al mon key s store ctx).event
          = some "QuotaExceeded" ∧
        (applyRateLimiting limiter ua al mon key s store ctx).health
          = some "QuotaViolation") ∧
      (fwd = false → reason ≠ 1 → reason ≠ 2 →
        (applyRateLimiting limiter ua al mon key s store ctx).code = 403 ∧
        (applyRateLimiting limiter ua al mon key s store ctx).err
          = some "Access denied" ∧
        (applyRateLimiting limiter ua al mon key s store ctx).event = none ∧
        (applyRateLimiting limiter ua al mon key s store ctx).health = none) ∧
      (fwd = true →
        (applyRateLimiting limiter ua al mon key s store ctx).code = 200 ∧
        (applyRateLimiting limiter ua al mon key s store ctx).err = none)) := by
  intro limiter ua al mon key s store ctx s2 fwd reason hl
  refine ⟨?_, ?_, ?_, ?_⟩
  · intro h1 h2
    subst h1; subst h2
    simp [applyRateLimiting, hl]
  · intro h1 h2
    subst h1; subst h2
    simp [applyRateLimiting, hl]
  · intro h1 h2 h3
    subst h1
    simp [applyRateLimiting, hl, h2, h3]
  · intro h1
    subst h1
    simp [applyRateLimiting, hl]

theorem claim_C7_witness :
    ((applyRateLimiting limRateW false false false "k" SessionState.zero [] none).code
        = 429 ∧
      (applyRateLimiting limRateW false false false "k" SessionState.zero [] none).event
        = some "RateLimitExceeded" ∧
      (applyRateLimiting limRateW false false false "k" SessionState.zero [] none).health
        = some "Throttle") ∧
    ((applyRateLimiting limQuotaW false false false "k" SessionState.zero [] none).code
        = 403 ∧
      (applyRateLimiting limQuotaW false false false "k" SessionState.zero [] none).event
        = some "QuotaExceeded") ∧
    ((applyRateLimiting limDenyW false false false "k" SessionState.zero [] none).code
        = 403 ∧
      (applyRateLimiting limDenyW false false false "k" SessionState.zero [] none).event
        = none) ∧
    (applyRateLimiting limAllowW false false false "k" SessionState.zero [] none).code
        = 200 :=
  ⟨⟨((claim_C7_limiter_verdict_outcomes limRateW false false false "k"
        SessionState.zero [] none SessionState.zero false 1 rfl).1 rfl rfl).1,
    ((claim_C7_limiter_verdict_outcomes limRateW false false false "k"
        SessionState.zero [] none SessionState.zero false 1 rfl).1 rfl rfl).2.2.1,
    ((claim_C7_limiter_verdict_outcomes limRateW false false false "k"
        SessionState.zero [] none SessionState.zero false 1 rfl).1 rfl rfl).2.2.2⟩,
   ⟨((claim_C7_limiter_verdict_outcomes limQuotaW false false false "k"
        SessionState.zero [] none SessionState.zero false 2 rfl).2.1 rfl rfl).1,
    ((claim_C7_limiter_verdict_outcomes limQuotaW false false false "k"
        SessionState.zero [] none SessionState.zero false 2 rfl).2.1 rfl rfl).2.2.1⟩,
   ⟨((claim_C7_limiter_verdict_outcomes limDenyW false false false "k"
        SessionState.zero [] none SessionState.zero false 7 rfl).2.2.1 rfl
        (by decide) (by decide)).1,
    ((claim_C7_limiter_verdict_outcomes limDenyW false false false "k"
        SessionState.zero [] none SessionState.zero false 7 rfl).2.2.1 rfl
        (by decide) (by decide)).2.2.1⟩,
   ((claim_C7_limiter_verdict_outcomes limAllowW false false false "k"
        SessionState.zero [] none SessionState.zero true 0 rfl).2.2.2 rfl).1⟩

/-- C8: resolving the same key twice with no intervening writes — whether or
not each call's asynchronous cache population has landed, hence regardless of
whether the second call is served from the local cache, the SessionStore, or
the AuthStore — yields equal `(SessionState, found)` results, both for
`checkSessionAndValidateKey` and for `CheckSessionAndIdentityForValidKey`. -/
theorem claim_C8_resolution_idempotent :
    ∀ (cfg : Env) (b1 b2 : Bool) (key : String) (st : GwState),
      (checkSessionAndValidateKey cfg b2 key
          (checkSessionAndValidateKey cfg b1 key st).2).1
        = (checkSessionAndValidateKey cfg b1 key st).1 ∧
      (CheckSessionAndIdentityForValidKey cfg b2 key
          (CheckSessionAndIdentityForValidKey cfg b1 key st).2).1
        = (CheckSessionAndIdentityForValidKey cfg b1 key st).1 :=
  fun cfg b1 b2 key st =>
    ⟨checkSessionAndValidateKey_idem cfg b1 b2 key st,
     CheckSessionAndIdentityForValidKey_idem cfg b1 b2 key st⟩

/-- C9: in synchronous-write mode the updated session is persisted to the
SessionStore and bound into the request context unconditionally — before the
allowed/denied decision is acted on — so even a request about to be rejected
with 429 or 403 leaves the stored session updated. -/
theorem claim_C9_sync_write_precedes_decision :
    ∀ (limiter : Limiter) (al mon : Bool) (key : String) (s : SessionState)
      (store : Store) (ctx : Option SessionState),
      (applyRateLimiting limiter false al mon key s store ctx).store
          = storeSet store key (limiter key s).1 ∧
      (applyRateLimiting limiter false al mon key s store ctx).ctxSessionData
          = some (limiter key s).1 := by
  intro limiter al mon key s store ctx
  rcases hl : limiter key s with ⟨s2, fwd, reason⟩
  cases fwd <;> by_cases h1 : reason = 1 <;> by_cases h2 : reason = 2 <;>
    simp [applyRateLimiting, hl, h1, h2]

/-- C10: `LoadPoliciesFromFile` is total and never reports an error: a read
failure yields the empty map, and an unmarshal failure yields whatever map
contents the unmarshal left behind (the function's return type has no error
channel, so callers cannot distinguish a missing or corrupt file from an
empty one). -/
theorem claim_C10_load_policies_total :
    ∀ (readFile : String → Except String (List Nat))
      (unmarshal : List Nat → Option String × List (String × Policy))
      (filePath : String),
      (∀ e, readFile filePath = .error e →
        LoadPoliciesFromFile readFile unmarshal filePath = []) ∧
      (∀ bs, readFile filePath = .ok bs →
        LoadPoliciesFromFile readFile unmarshal filePath = (unmarshal bs).2) := by
  intro readFile unmarshal filePath
  constructor
  · intro e he; simp [LoadPoliciesFromFile, he]
  · intro bs hb; simp [LoadPoliciesFromFile, hb]

theorem claim_C10_witness :
    LoadPoliciesFromFile readErrW unmarshalOkW "policies.json" = [] ∧
    LoadPoliciesFromFile readOkW unmarshalErrW "policies.json" = [] ∧
    LoadPoliciesFromFile readOkW unmarshalOkW "policies.json" = [("P1", pol1)] :=
  ⟨(claim_C10_load_policies_total readErrW unmarshalOkW "policies.json").1
      "no such file or directory" rfl,
   ((claim_C10_load_policies_total readOkW unmarshalErrW "policies.json").2
      [123, 125] rfl).trans rfl,
   ((claim_C10_load_policies_total readOkW unmarshalOkW "policies.json").2
      [123, 125] rfl).trans rfl⟩

end Tyk
